import Mathlib

/-!
# Verification of `src/schema_validator.py`

A shallow embedding of the JSON-schema validation driver of this
repository, together with theorems settling the specification's claims
about it.

Modelling conventions:

* Python values passed around by the driver are modelled by `Json`;
  Python's `None` (an absent load result) is `Option.none`, so functions
  that may receive a missing value take `Option Json`.
* The third-party `jsonschema` library (`Draft4Validator`, `RefResolver`)
  is not code of this repository; it is modelled abstractly: a compiled
  validator is any function producing the sequence of validation errors
  for an instance, and the Draft-4 meta-schema check is an abstract
  function that either accepts the schema or raises a `SchemaError`.
* File-system effects (`open`/`read`, `os.path.exists`, `glob.glob`,
  `os.path.dirname`, `os.path.join`) are modelled by an explicit
  environment `Env` of pure functions.
* Console output (`print` and `warnings.warn` alike) is modelled as a
  transcript: a `List String` of emitted lines, in program order.
* A raised, uncaught Python exception is an `Except.error`; a normal
  return is `Except.ok`.  The process exit status of a run is 0 exactly
  when the run returns normally.
-/

namespace SchemaValidator

/-- JSON values, as parsed from schema and instance files. -/
inductive Json where
  | null : Json
  | bool (b : Bool) : Json
  | num (n : Int) : Json
  | str (s : String) : Json
  | arr (elems : List Json) : Json
  | obj (fields : List (String × Json)) : Json
deriving Repr

/-- A validation error as produced by the validation engine: a node in a
tree carrying a human-readable message, the schema path from the schema
root to the failing sub-schema (`absolute_schema_path`), and the ordered
sequence of nested sub-errors (`context`, e.g. one per failing branch of
an `anyOf`). -/
inductive VError where
  | mk (message : String) (schemaPath : List String) (context : List VError) : VError
deriving Repr

/-- The error's human-readable message (`e.message`). -/
def VError.message : VError → String
  | .mk m _ _ => m

/-- The error's schema path (`e.absolute_schema_path`). -/
def VError.schemaPath : VError → List String
  | .mk _ p _ => p

/-- The error's nested sub-errors (`e.context`). -/
def VError.context : VError → List VError
  | .mk _ _ c => c

/-- A compiled validator (the abstract model of a `Draft4Validator`
object): it is determined by the sequence of validation errors
(`iter_errors`) it produces for each instance.  `none` is Python's
`None` being passed as the instance. -/
structure Validator where
  errors : Option Json → List VError

/-- `validator.is_valid(instance)`: the instance conforms exactly when
the validation engine produces no errors for it (the `jsonschema`
contract relating `is_valid` and `iter_errors`). -/
def is_valid (v : Validator) (i : Option Json) : Bool :=
  (v.errors i).isEmpty

/-- The error raised by `Draft4Validator.check_schema` on a schema that
is structurally invalid under the Draft 4 meta-schema. -/
structure SchemaError where
  msg : String
deriving Repr, DecidableEq

/-- Outcome of Python's `open(filename).read()`: the file content, or
one of the two caught I/O failures. -/
inductive ReadResult where
  | content (s : String) : ReadResult
  | fileNotFound : ReadResult
  | ioError (msg : String) : ReadResult
deriving Repr, DecidableEq

/-- The pure file-system and library environment threaded through the
driver: reading a file, parsing JSON (`json.loads`, failing with a
`JSONDecodeError` message), path existence, `glob` over `*.json`, path
joining and `os.path.dirname`, the Draft-4 meta-schema check and
validator construction. -/
structure Env where
  readFile : String → ReadResult
  parseJson : String → Except String Json
  pathExists : String → Bool
  globJson : String → List String
  joinPath : String → String → String
  dirname : String → String
  scriptFolder : String
  check_schema : Option Json → Except SchemaError Unit
  build : Option Json → Option String → Validator

/-- `get_json_from_file(filename)`: read and parse a JSON file.
Returns the parsed value and the emitted warnings: on
`FileNotFoundError`, `IOError` or `json.JSONDecodeError` it warns and
returns no value (Python falls off the function, returning `None`);
otherwise it returns the parsed JSON value with no warning. -/
def get_json_from_file (env : Env) (filename : String) :
    Option Json × List String :=
  match env.readFile filename with
  | .fileNotFound => (none, ["File not found: " ++ filename])
  | .ioError exc => (none, ["I/O error while opening " ++ filename ++ ": " ++ exc])
  | .content fc =>
      match env.parseJson fc with
      | .error exc => (none, ["Failed to parse JSON in " ++ filename ++ ": " ++ exc])
      | .ok j => (some j, [])

/-- Rendering of `str(e.absolute_schema_path)` (Python shows the
`deque` of path segments). -/
def path_to_string (p : List String) : String :=
  "deque(" ++ String.intercalate ", " p ++ ")"

/-- The single diagnostic line `recurse_through_errors` emits for error
`e` at nesting level `level`:
`"***" * level + " subschema level " + str(level)` followed (with no
separator, as in the source) by the tab-join of the message and
`"Path to error:" + str(e.absolute_schema_path)`, ending in a newline. -/
def emitDiag (e : VError) (level : Nat) : String :=
  String.join (List.replicate level "***")
    ++ " subschema level " ++ toString level
    ++ String.intercalate "\t" [e.message, "Path to error:" ++ path_to_string e.schemaPath]
    ++ "\n"

/-- `recurse_through_errors(es, level)`: for each error in `es`, warn
its diagnostic at the current value of the (mutable) `level` variable;
if the error has nested `context` errors, execute `level += 1` and
recurse into them.  The increment survives into the remaining loop
iterations, exactly as in the Python source, so after the first
context-bearing error the remaining siblings are processed with the
incremented level.  The result is the list of warned lines in order. -/
def recurse_through_errors : List VError → Nat → List String
  | [], _ => []
  | .mk m p c :: rest, level =>
      emitDiag (.mk m p c) level ::
        (if c.isEmpty then recurse_through_errors rest level
         else recurse_through_errors c (level + 1) ++ recurse_through_errors rest (level + 1))

/-- `validate(validator, instance)`: returns the boolean outcome paired
with the emitted lines, in order.  On success it prints
`"Validation Passes"`; on failure it obtains the full error sequence,
reports it recursively, prints `"Validation Fails"` and returns false
(the `sys.exit("Validation Fails")` in the source is commented out). -/
def validate (v : Validator) (i : Option Json) : Bool × List String :=
  if is_valid v i then
    (true, ["Validation Passes"])
  else
    (false, recurse_through_errors (v.errors i) 0 ++ ["Validation Fails"])

/-- `get_validator(filename, base_uri)`: load the schema file, run
`Draft4Validator.check_schema` on it (re-raising any `SchemaError`
uncaught), print the confirmation message, and build a
`Draft4Validator` with a `RefResolver` anchored at `base_uri` when a
non-empty base URI is given.  The result is the emitted transcript so
far paired with either the raised error or the built validator. -/
def get_validator (env : Env) (filename : String) (base_uri : String) :
    List String × Except SchemaError Validator :=
  let loaded := get_json_from_file env filename
  match env.check_schema loaded.1 with
  | .error e => (loaded.2, .error e)
  | .ok _ =>
      (loaded.2 ++ [filename ++ " is a valid JSON schema"],
       .ok (env.build loaded.1 (if base_uri ≠ "" then some base_uri else none)))

/-- An exception escaping `run_validator`: either one of its own
`Exception(...)` raises for a bad directory, or a propagated
`SchemaError` from the schema check. -/
inductive RunExc where
  | exc (msg : String) : RunExc
  | schemaErr (e : SchemaError) : RunExc
deriving Repr, DecidableEq

/-- The body of `run_validator`'s loop for one instance file: load the
JSON (warnings emitted), print `"Testing: <file>"`, and run `validate`
on the load result — also when the load produced no value. -/
def process_file (env : Env) (sv : Validator) (instance_file : String) : List String :=
  let loaded := get_json_from_file env instance_file
  loaded.2 ++ ["Testing: " ++ instance_file] ++ (validate sv loaded.1).2

/-- `run_validator(path_to_schema_dir, schema_file, path_to_test_dir)`:
resolve both directories relative to the script folder via
`os.path.dirname`/`os.path.join`, raise a descriptive `Exception` if
either does not exist, build the validator once (propagating any
`SchemaError`), glob `*.json` files in the test directory, and for each
file load it and `validate` it against the single validator.  The
per-file boolean results are discarded; the function returns normally,
so the process exit status is 0 whenever no exception is raised.  The
result is the transcript paired with the outcome. -/
def run_validator (env : Env)
    (path_to_schema_dir schema_file path_to_test_dir : String) :
    List String × Except RunExc Unit :=
  let script_folder := env.scriptFolder
  let schema_dir := env.dirname path_to_schema_dir
  let test_dir := env.dirname path_to_test_dir
  if !(env.pathExists (env.joinPath script_folder schema_dir)) then
    ([], .error (.exc "Please provide valid path_to_schema_dir"))
  else if !(env.pathExists (env.joinPath script_folder test_dir)) then
    ([], .error (.exc "Please provide valid path_to_test_dir"))
  else
    let gv := get_validator env
      (env.joinPath (env.joinPath script_folder schema_dir) schema_file) ""
    match gv.2 with
    | .error e => (gv.1, .error (.schemaErr e))
    | .ok sv =>
        let test_files := env.globJson (env.joinPath script_folder test_dir)
        (gv.1 ++ (test_files.map (process_file env sv)).flatten, .ok ())

/-- The process exit status of a completed run: 0 on a normal return,
nonzero (1) when an exception escapes. -/
def exit_status (r : List String × Except RunExc Unit) : Nat :=
  match r.2 with
  | .ok _ => 0
  | .error _ => 1

/-- The pre-order flattening of an error forest: each error first, then
its `context` subtree, then the remaining errors of the sequence. -/
def preorder : List VError → List VError
  | [] => []
  | .mk m p c :: rest => .mk m p c :: (preorder c ++ preorder rest)

/-- The nesting levels at which `recurse_through_errors` emits the
successive diagnostics, in emission order (mirrors its recursion,
including the surviving `level += 1`). -/
def emitted_levels : List VError → Nat → List Nat
  | [], _ => []
  | .mk _ _ c :: rest, level =>
      level ::
        (if c.isEmpty then emitted_levels rest level
         else emitted_levels c (level + 1) ++ emitted_levels rest (level + 1))

/-- The total number of error nodes in a forest (every error plus all
its nested `context` descendants). -/
def total_size : List VError → Nat
  | [] => 0
  | .mk _ _ c :: rest => 1 + total_size c + total_size rest

/-- A fuelled variant of `recurse_through_errors`: each call consumes
one unit of fuel and returns `none` when the fuel is exhausted.  Used
to state termination: enough fuel always exists. -/
def rte_fueled : Nat → List VError → Nat → Option (List String)
  | 0, _, _ => none
  | _ + 1, [], _ => some []
  | fuel + 1, .mk m p c :: rest, level =>
      let head := emitDiag (.mk m p c) level
      if c.isEmpty then
        match rte_fueled fuel rest level with
        | none => none
        | some out => some (head :: out)
      else
        match rte_fueled fuel c (level + 1), rte_fueled fuel rest (level + 1) with
        | some o1, some o2 => some (head :: (o1 ++ o2))
        | _, _ => none

/-- `instances.map (validate v)`: the batch of outcomes obtained by
reusing the single validator across a sequence of instances, as
`run_validator`'s loop does. -/
def validateAll (v : Validator) (instances : List (Option Json)) :
    List (Bool × List String) :=
  instances.map (validate v)

/-- A validator for which every instance fails with a single
type-mismatch error, as built by the test environments below. -/
def mixed_sv : Validator :=
  ⟨fun _ => [.mk "instance is not valid" ["type"] []]⟩

/-- A validator for which every instance conforms. -/
def pass_validator : Validator := ⟨fun _ => []⟩

/-- A concrete environment: both directories exist, the schema file
`S/sd/schema.json` loads and checks, the test directory holds two
instance files of which `a.json` is missing on disk and `b.json` parses
to `null`, and the built validator rejects every instance. -/
def envMixed : Env where
  readFile := fun fn =>
    if fn = "S/sd/schema.json" then .content "SCHEMA"
    else if fn = "b.json" then .content "INST"
    else .fileNotFound
  parseJson := fun s =>
    if s = "SCHEMA" then .ok (.obj [])
    else if s = "INST" then .ok .null
    else .error "Expecting value"
  pathExists := fun _ => true
  globJson := fun _ => ["a.json", "b.json"]
  joinPath := fun a b => a ++ "/" ++ b
  dirname := fun s => s
  scriptFolder := "S"
  check_schema := fun s =>
    match s with
    | some _ => .ok ()
    | none => .error ⟨"None is not a schema"⟩
  build := fun _ _ => mixed_sv

/-- `envMixed` with no existing path at all: the schema-directory check
fails. -/
def envNoSchemaDir : Env := { envMixed with pathExists := fun _ => false }

/-- `envMixed` where only the schema directory `S/sd` exists: the
test-directory check fails. -/
def envNoTestDir : Env := { envMixed with pathExists := fun p => p == "S/sd" }

/-- A leaf error nested inside the first failing `anyOf` branch. -/
def branch_g : VError :=
  .mk "deep failure" ["anyOf", "0", "properties", "x", "type"] []

/-- The first failing `anyOf` branch; it carries a nested context. -/
def branch_one : VError := .mk "branch 1 failed" ["anyOf", "0"] [branch_g]

/-- The second failing `anyOf` branch, with no nested context. -/
def branch_two : VError := .mk "branch 2 failed" ["anyOf", "1"] []

/-- A level-0 `anyOf` failure with two failing branches, the first of
which has a nested sub-error. -/
def err_anyOf : VError :=
  .mk "is not valid under any of the given schemas" ["anyOf"] [branch_one, branch_two]

theorem emitted_levels_length (es : List VError) (level : Nat) :
    (emitted_levels es level).length = (preorder es).length := by
  induction es, level using emitted_levels.induct with
  | case1 level => simp [emitted_levels, preorder]
  | case2 m p c rest level ih3 ih2 ih1 =>
      simp only [emitted_levels, preorder, List.length_cons]
      by_cases hc : c.isEmpty = true
      · have hc' : c = [] := List.isEmpty_iff.mp hc
        subst hc'
        simp [hc, preorder, ih3]
      · simp [hc, List.length_append, ih2, ih1]

theorem rte_zipWith (es : List VError) (level : Nat) :
    recurse_through_errors es level =
      List.zipWith emitDiag (preorder es) (emitted_levels es level) := by
  induction es, level using recurse_through_errors.induct with
  | case1 level => simp [recurse_through_errors, preorder, emitted_levels]
  | case2 m p c rest level ih3 ih2 ih1 =>
      simp only [recurse_through_errors, preorder, emitted_levels, List.zipWith]
      by_cases hc : c.isEmpty = true
      · have hc' : c = [] := List.isEmpty_iff.mp hc
        subst hc'
        simp [hc, preorder, ih3]
      · rw [if_neg hc, if_neg hc,
          List.zipWith_append _ _ _ _ _ ((emitted_levels_length c (level + 1)).symm),
          ih2, ih1]

theorem rte_fueled_sufficient :
    ∀ (fuel : Nat) (es : List VError) (level : Nat), total_size es < fuel →
      rte_fueled fuel es level = some (recurse_through_errors es level) := by
  intro fuel
  induction fuel with
  | zero => intro es level h; omega
  | succ f ih =>
      intro es level h
      match es with
      | [] => simp [rte_fueled, recurse_through_errors]
      | .mk m p c :: rest =>
          have h' : 1 + total_size c + total_size rest < f + 1 := by
            simpa [total_size] using h
          have hc1 : total_size c < f := by omega
          have hr1 : total_size rest < f := by omega
          by_cases hcE : c.isEmpty = true
          · simp [rte_fueled, recurse_through_errors, hcE, ih rest level hr1]
          · simp [rte_fueled, recurse_through_errors, hcE,
              ih c (level + 1) hc1, ih rest (level + 1) hr1]

theorem validate_snd_getLast (v : Validator) (i : Option Json) :
    ((validate v i).2).getLast? =
      some (if (validate v i).1 then "Validation Passes" else "Validation Fails") := by
  by_cases h : is_valid v i
  · simp [validate, h]
  · simp [validate, h, List.getLast?_append]

/-- C1 (counterexample): the claim that a batch run with `M > 0`
failing instances terminates with a non-zero exit status is false.  In
`envMixed` both instance files fail validation (the transcript contains
`"Validation Fails"`), yet `run_validator` returns normally and the
process exit status is 0 — the `sys.exit("Validation Fails")` in the
source is commented out and the per-file boolean results are
discarded. -/
theorem run_validator_exit_zero_on_failure :
    (run_validator envMixed "sd" "schema.json" "td").2 = .ok ()
    ∧ exit_status (run_validator envMixed "sd" "schema.json" "td") = 0
    ∧ "Validation Fails" ∈ (run_validator envMixed "sd" "schema.json" "td").1 := by
  refine ⟨rfl, rfl, ?_⟩
  simp [run_validator, envMixed, get_validator, get_json_from_file, process_file,
    validate, is_valid, mixed_sv, recurse_through_errors, emitDiag]

/-- C1 (amended): whenever both resolved directories exist and the
schema check succeeds, the batch run returns normally — the process
exit status is 0 regardless of how many instances fail; a failing
instance is reported only by the fixed printed line
`"Validation Fails"` at the end of its per-file output (a passing one
by `"Validation Passes"`), never by the exit status. -/
theorem run_validator_completes_regardless (env : Env)
    (p2sd sf p2td : String) (sv : Validator)
    (hs : env.pathExists (env.joinPath env.scriptFolder (env.dirname p2sd)) = true)
    (ht : env.pathExists (env.joinPath env.scriptFolder (env.dirname p2td)) = true)
    (hv : (get_validator env
        (env.joinPath (env.joinPath env.scriptFolder (env.dirname p2sd)) sf) "").2
          = .ok sv) :
    exit_status (run_validator env p2sd sf p2td) = 0
    ∧ ∀ f ∈ env.globJson (env.joinPath env.scriptFolder (env.dirname p2td)),
        (process_file env sv f).getLast? =
          some (if (validate sv (get_json_from_file env f).1).1
                then "Validation Passes" else "Validation Fails") := by
  constructor
  · simp [run_validator, hs, ht, hv, exit_status]
  · intro f _
    have hlast := validate_snd_getLast sv (get_json_from_file env f).1
    simp only [process_file]
    rw [List.getLast?_append, hlast]
    simp

/-- C1 (witness): the amended statement at the concrete `envMixed`
batch, whose file `a.json` fails validation. -/
theorem run_validator_completes_regardless_witness :
    exit_status (run_validator envMixed "sd" "schema.json" "td") = 0
    ∧ (process_file envMixed mixed_sv "a.json").getLast? = some "Validation Fails" := by
  have h := run_validator_completes_regardless envMixed "sd" "schema.json" "td" mixed_sv
    rfl rfl rfl
  refine ⟨h.1, ?_⟩
  have h2 := h.2 "a.json" (by simp [envMixed])
  simpa [envMixed, get_json_from_file, validate, is_valid, mixed_sv] using h2

/-- C2: evaluation of `recurse_through_errors` at the failing input
`[err_anyOf]` — a level-0 `anyOf` failure with two branches, the first
carrying a nested sub-error.  The emitted nesting levels are
`[0, 1, 2, 2]`: the second branch `branch_two`, a direct child of the
level-0 error, is emitted at level 2 rather than the claimed level 1,
because the `level += 1` executed while handling the first branch
survives into the remaining loop iterations.  The two renderings
differ, so the drift is visible in the output. -/
theorem recurse_level_drift :
    emitted_levels [err_anyOf] 0 = [0, 1, 2, 2]
    ∧ recurse_through_errors [err_anyOf] 0 =
        [emitDiag err_anyOf 0, emitDiag branch_one 1,
         emitDiag branch_g 2, emitDiag branch_two 2]
    ∧ emitDiag branch_two 2 ≠ emitDiag branch_two 1 := by
  refine ⟨?_, ?_, ?_⟩
  · simp [emitted_levels, err_anyOf, branch_one, branch_two, branch_g]
  · simp [recurse_through_errors, err_anyOf, branch_one, branch_two, branch_g]
  · decide

/-- C3: `validate` returns true exactly when the validation engine
produces no errors for the instance; on success it emits the single
success message (and in particular no failure diagnostic), and on
failure it passes the full error sequence to the error reporter, prints
the failure message last, and returns false. -/
theorem validate_spec (v : Validator) (i : Option Json) :
    ((validate v i).1 = true ↔ v.errors i = [])
    ∧ (v.errors i = [] → validate v i = (true, ["Validation Passes"]))
    ∧ (v.errors i ≠ [] →
        validate v i =
          (false, recurse_through_errors (v.errors i) 0 ++ ["Validation Fails"]))
    ∧ (v.errors i = [] → "Validation Fails" ∉ (validate v i).2) := by
  by_cases h : v.errors i = []
  · simp [validate, is_valid, h]
  · simp [validate, is_valid, h, List.isEmpty_iff]

/-- C3 (witness): `validate` at a conforming and at a non-conforming
concrete instance. -/
theorem validate_spec_witness :
    validate pass_validator (some .null) = (true, ["Validation Passes"])
    ∧ validate mixed_sv none =
        (false, recurse_through_errors (mixed_sv.errors none) 0 ++ ["Validation Fails"]) :=
  ⟨(validate_spec pass_validator (some .null)).2.1 rfl,
   (validate_spec mixed_sv none).2.2.1 (List.cons_ne_nil _ _)⟩

/-- C4: when the meta-schema check rejects the loaded schema value,
`get_validator` propagates the `SchemaError` uncaught and returns no
validator; when the check accepts, no error is raised, the confirmation
message is emitted, and a validator is returned. -/
theorem get_validator_spec (env : Env) (filename base_uri : String) :
    (∀ e, env.check_schema (get_json_from_file env filename).1 = .error e →
        get_validator env filename base_uri =
          ((get_json_from_file env filename).2, .error e))
    ∧ (env.check_schema (get_json_from_file env filename).1 = .ok () →
        ∃ sv, get_validator env filename base_uri =
          ((get_json_from_file env filename).2 ++ [filename ++ " is a valid JSON schema"],
           .ok sv)) := by
  constructor
  · intro e h
    simp [get_validator, h]
  · intro h
    refine ⟨env.build (get_json_from_file env filename).1
      (if base_uri ≠ "" then some base_uri else none), ?_⟩
    simp [get_validator, h]

/-- C4 (witness): a schema file whose load fails (so the check rejects
the absent value and the error propagates) and a schema file that
loads and checks, yielding the confirmation message. -/
theorem get_validator_spec_witness :
    get_validator envMixed "missing.json" "" =
      ((get_json_from_file envMixed "missing.json").2, .error ⟨"None is not a schema"⟩)
    ∧ ∃ sv, get_validator envMixed "S/sd/schema.json" "" =
        ((get_json_from_file envMixed "S/sd/schema.json").2 ++
          ["S/sd/schema.json is a valid JSON schema"], .ok sv) :=
  ⟨(get_validator_spec envMixed "missing.json" "").1 ⟨"None is not a schema"⟩ rfl,
   (get_validator_spec envMixed "S/sd/schema.json" "").2 rfl⟩

/-- C5: `get_json_from_file` emits the matching warning and returns no
value when the file is missing (`FileNotFoundError`), unreadable
(`IOError`) or not valid JSON (`json.JSONDecodeError`), and returns the
parsed JSON value with no warning when the file reads and parses. -/
theorem get_json_from_file_spec (env : Env) (filename : String) :
    (env.readFile filename = .fileNotFound →
        get_json_from_file env filename = (none, ["File not found: " ++ filename]))
    ∧ (∀ m, env.readFile filename = .ioError m →
        get_json_from_file env filename =
          (none, ["I/O error while opening " ++ filename ++ ": " ++ m]))
    ∧ (∀ fc m, env.readFile filename = .content fc → env.parseJson fc = .error m →
        get_json_from_file env filename =
          (none, ["Failed to parse JSON in " ++ filename ++ ": " ++ m]))
    ∧ (∀ fc j, env.readFile filename = .content fc → env.parseJson fc = .ok j →
        get_json_from_file env filename = (some j, [])) := by
  refine ⟨fun h => by simp [get_json_from_file, h],
    fun m h => by simp [get_json_from_file, h],
    fun fc m h1 h2 => by simp [get_json_from_file, h1, h2],
    fun fc j h1 h2 => by simp [get_json_from_file, h1, h2]⟩

/-- C5 (witness): a missing file warns and yields no value; a readable
valid-JSON file yields the parsed value with no warning. -/
theorem get_json_from_file_spec_witness :
    get_json_from_file envMixed "a.json" = (none, ["File not found: " ++ "a.json"])
    ∧ get_json_from_file envMixed "b.json" = (some .null, []) :=
  ⟨(get_json_from_file_spec envMixed "a.json").1 rfl,
   (get_json_from_file_spec envMixed "b.json").2.2.2 "INST" .null rfl rfl⟩

/-- C6: `recurse_through_errors` visits errors depth-first in
pre-order: its emitted diagnostics are exactly one line per node of the
pre-order flattening of the error forest (each error of the sequence in
the order given, an error's own line before any line of its nested
context errors), each rendered at some nesting level. -/
theorem recurse_preorder_traversal (es : List VError) (level : Nat) :
    recurse_through_errors es level =
      List.zipWith emitDiag (preorder es) (emitted_levels es level)
    ∧ (emitted_levels es level).length = (preorder es).length :=
  ⟨rte_zipWith es level, emitted_levels_length es level⟩

/-- C7: the validator is stateless with respect to reuse — in a batch
that reuses one validator, the outcome and diagnostics for an instance
are those of validating it alone, unaffected by the instances validated
before or after it; and validating the same instance twice yields two
identical results. -/
theorem validate_reuse_stateless (v : Validator) (pre post : List (Option Json))
    (i : Option Json) :
    (validateAll v (pre ++ i :: post))[pre.length]? = some (validate v i)
    ∧ validateAll v [i, i] = [validate v i, validate v i] := by
  constructor
  · induction pre with
    | nil => simp [validateAll]
    | cons a t ih => simpa [validateAll] using ih
  · rfl

/-- C8: `recurse_through_errors` terminates on every finite error
forest: the fuelled variant, which fails when its fuel runs out, never
runs out when given fuel one more than the number of nodes, and then
computes exactly the traversal's output. -/
theorem recurse_through_errors_terminates (es : List VError) (level : Nat) :
    rte_fueled (total_size es + 1) es level = some (recurse_through_errors es level) :=
  rte_fueled_sufficient (total_size es + 1) es level (Nat.lt_succ_self _)

/-- C9: when the resolved schema directory does not exist,
`run_validator` raises the descriptive exception immediately, and when
it exists but the resolved test directory does not, it raises the other
descriptive exception — in both cases with an empty transcript, so no
validator was constructed and no instance was validated. -/
theorem run_validator_fail_fast (env : Env) (p2sd sf p2td : String) :
    (env.pathExists (env.joinPath env.scriptFolder (env.dirname p2sd)) = false →
        run_validator env p2sd sf p2td =
          ([], .error (.exc "Please provide valid path_to_schema_dir")))
    ∧ (env.pathExists (env.joinPath env.scriptFolder (env.dirname p2sd)) = true →
       env.pathExists (env.joinPath env.scriptFolder (env.dirname p2td)) = false →
        run_validator env p2sd sf p2td =
          ([], .error (.exc "Please provide valid path_to_test_dir"))) := by
  constructor
  · intro h
    simp [run_validator, h]
  · intro hs ht
    simp [run_validator, hs, ht]

/-- C9 (witness): the two fail-fast branches at concrete environments
missing the schema directory and the test directory respectively. -/
theorem run_validator_fail_fast_witness :
    run_validator envNoSchemaDir "sd" "schema.json" "td" =
      ([], .error (.exc "Please provide valid path_to_schema_dir"))
    ∧ run_validator envNoTestDir "sd" "schema.json" "td" =
      ([], .error (.exc "Please provide valid path_to_test_dir")) :=
  ⟨(run_validator_fail_fast envNoSchemaDir "sd" "schema.json" "td").1 rfl,
   (run_validator_fail_fast envNoTestDir "sd" "schema.json" "td").2 rfl rfl⟩

/-- C10: `run_validator` neither skips a file whose load failed nor
aborts the batch: its transcript is the concatenation of `process_file`
over every discovered test file, and for a file whose load yields no
value, `process_file` still announces the file and runs `validate` on
the absent (`none`) result. -/
theorem run_validator_no_skip (env : Env) (p2sd sf p2td : String) (sv : Validator)
    (hs : env.pathExists (env.joinPath env.scriptFolder (env.dirname p2sd)) = true)
    (ht : env.pathExists (env.joinPath env.scriptFolder (env.dirname p2td)) = true)
    (hv : (get_validator env
        (env.joinPath (env.joinPath env.scriptFolder (env.dirname p2sd)) sf) "").2
          = .ok sv) :
    run_validator env p2sd sf p2td =
      ((get_validator env
          (env.joinPath (env.joinPath env.scriptFolder (env.dirname p2sd)) sf) "").1 ++
        ((env.globJson (env.joinPath env.scriptFolder (env.dirname p2td))).map
          (process_file env sv)).flatten,
       .ok ())
    ∧ ∀ f, (get_json_from_file env f).1 = none →
        process_file env sv f =
          (get_json_from_file env f).2 ++ ["Testing: " ++ f] ++ (validate sv none).2 := by
  constructor
  · simp [run_validator, hs, ht, hv]
  · intro f hf
    simp [process_file, hf]

/-- C10 (witness): the `envMixed` batch — `a.json` fails to load, is
still validated (as `none`), and `b.json` is processed afterwards. -/
theorem run_validator_no_skip_witness :
    run_validator envMixed "sd" "schema.json" "td" =
      ((get_validator envMixed
          (envMixed.joinPath (envMixed.joinPath envMixed.scriptFolder
            (envMixed.dirname "sd")) "schema.json") "").1 ++
        ((envMixed.globJson (envMixed.joinPath envMixed.scriptFolder
            (envMixed.dirname "td"))).map (process_file envMixed mixed_sv)).flatten,
       .ok ())
    ∧ process_file envMixed mixed_sv "a.json" =
        (get_json_from_file envMixed "a.json").2 ++ ["Testing: " ++ "a.json"] ++
          (validate mixed_sv none).2 :=
  have h := run_validator_no_skip envMixed "sd" "schema.json" "td" mixed_sv rfl rfl rfl
  ⟨h.1, h.2 "a.json" rfl⟩

end SchemaValidator
